import Mathlib

/-!
Shallow embedding of the olympiad-platform backend (config.py, database.py,
models.py, schemas.py, crud.py, main.py) and proofs about its behaviour.

Conventions:
* Python values returned by `json.loads` and by the subjects-normalization
  code are modelled by the inductive `PyVal`.
* SQLAlchemy storage is modelled by an explicit `DB` state record; each
  CRUD/service operation is a function from the state (plus arguments) to a
  result and a new state; operations that can propagate a storage error
  return `Except`.
* `datetime` values are modelled as a (day ordinal, time-of-day) pair; date
  parsing of `DD.MM.YYYY` follows Python `datetime.strptime`.
-/

namespace Backend

/-- Python values as produced by `json.loads` and by the subjects parsing
functions: `None`, booleans, ints, floats (kept as their source token — no
claim computes with float arithmetic), strings, lists and dicts. -/
inductive PyVal where
  | none : PyVal
  | bool : Bool → PyVal
  | int : Int → PyVal
  | float : String → PyVal
  | str : String → PyVal
  | list : List PyVal → PyVal
  | dict : List (String × PyVal) → PyVal

/-- The whitespace characters stripped by Python `str.strip()` (ASCII part). -/
def isPySpace (c : Char) : Bool :=
  c = ' ' || c = '\t' || c = '\n' || c = '\r' || c = Char.ofNat 11 || c = Char.ofNat 12

/-- Python `str.strip()`. -/
def pyStrip (s : String) : String :=
  String.mk (((s.data.dropWhile isPySpace).reverse.dropWhile isPySpace).reverse)

/-- Split a character list on a separator character, keeping empty pieces
(`"a,,b"` gives `["a","","b"]`, `""` gives `[""]`). -/
def splitOnChar (sep : Char) : List Char → List (List Char)
  | [] => [[]]
  | c :: rest =>
    match splitOnChar sep rest with
    | h :: t => if c = sep then [] :: h :: t else (c :: h) :: t
    | [] => [[]]

/-- Python `s.split(sep)` for a one-character separator. -/
def pySplit (s : String) (sep : Char) : List String :=
  (splitOnChar sep s.data).map String.mk

/-- JSON inter-token whitespace (RFC 8259: space, tab, newline, return). -/
def isJsonWs (c : Char) : Bool :=
  c = ' ' || c = '\t' || c = '\n' || c = '\r'

/-- Drop leading JSON whitespace. -/
def skipWs : List Char → List Char
  | [] => []
  | c :: cs => if isJsonWs c then skipWs cs else c :: cs

/-- Hex digit value, for `\uXXXX` escapes. -/
def hexVal (c : Char) : Option Nat :=
  if '0' ≤ c ∧ c ≤ '9' then some (c.toNat - '0'.toNat)
  else if 'a' ≤ c ∧ c ≤ 'f' then some (c.toNat - 'a'.toNat + 10)
  else if 'A' ≤ c ∧ c ≤ 'F' then some (c.toNat - 'A'.toNat + 10)
  else Option.none

/-- Body of a JSON string literal (opening quote already consumed); returns
the decoded string and the remaining input.  Strict mode as in Python
`json.loads`: raw control characters and unknown escapes are errors. -/
def parseJStr (fuel : Nat) (acc : List Char) (cs : List Char) :
    Option (String × List Char) :=
  match fuel with
  | 0 => Option.none
  | fuel + 1 =>
    match cs with
    | [] => Option.none
    | '"' :: rest => some (String.mk acc.reverse, rest)
    | '\\' :: rest =>
      match rest with
      | [] => Option.none
      | e :: rest2 =>
        if e = '"' then parseJStr fuel ('"' :: acc) rest2
        else if e = '\\' then parseJStr fuel ('\\' :: acc) rest2
        else if e = '/' then parseJStr fuel ('/' :: acc) rest2
        else if e = 'b' then parseJStr fuel (Char.ofNat 8 :: acc) rest2
        else if e = 'f' then parseJStr fuel (Char.ofNat 12 :: acc) rest2
        else if e = 'n' then parseJStr fuel ('\n' :: acc) rest2
        else if e = 'r' then parseJStr fuel ('\r' :: acc) rest2
        else if e = 't' then parseJStr fuel ('\t' :: acc) rest2
        else if e = 'u' then
          match rest2 with
          | h1 :: h2 :: h3 :: h4 :: rest3 =>
            match hexVal h1, hexVal h2, hexVal h3, hexVal h4 with
            | some a, some b, some c, some d =>
              parseJStr fuel (Char.ofNat (((a * 16 + b) * 16 + c) * 16 + d) :: acc) rest3
            | _, _, _, _ => Option.none
          | _ => Option.none
        else Option.none
    | c :: rest =>
      if c.toNat < 32 then Option.none else parseJStr fuel (c :: acc) rest

/-- Digits to a natural number (most significant first). -/
def digitsToNat (ds : List Char) : Nat :=
  ds.foldl (fun n c => n * 10 + (c.toNat - '0'.toNat)) 0

/-- A JSON number token: `-?(0|[1-9][0-9]*)(\.[0-9]+)?([eE][-+]?[0-9]+)?`.
An integer token yields a Python int; otherwise the matched token is kept as
a float.  Consumes the longest valid prefix, as Python regex-based scanner
does. -/
def parseJNum (cs : List Char) : Option (PyVal × List Char) :=
  let (sgn, cs1) : (Bool × List Char) :=
    match cs with
    | '-' :: rest => (true, rest)
    | _ => (false, cs)
  let ipart : Option (List Char × List Char) :=
    match cs1 with
    | '0' :: rest => some (['0'], rest)
    | c :: rest =>
      if c.isDigit ∧ c ≠ '0' then
        let (ds, rest2) := rest.span Char.isDigit
        some (c :: ds, rest2)
      else Option.none
    | [] => Option.none
  match ipart with
  | Option.none => Option.none
  | some (ids, cs2) =>
    let (frac, cs3) : (List Char × List Char) :=
      match cs2 with
      | '.' :: d :: rest =>
        if d.isDigit then
          let (ds, rest2) := rest.span Char.isDigit
          ('.' :: d :: ds, rest2)
        else ([], cs2)
      | _ => ([], cs2)
    let (ex, cs4) : (List Char × List Char) :=
      match cs3 with
      | e :: '+' :: d :: rest =>
        if (e = 'e' ∨ e = 'E') ∧ d.isDigit then
          let (ds, rest2) := rest.span Char.isDigit
          (e :: '+' :: d :: ds, rest2)
        else ([], cs3)
      | e :: '-' :: d :: rest =>
        if (e = 'e' ∨ e = 'E') ∧ d.isDigit then
          let (ds, rest2) := rest.span Char.isDigit
          (e :: '-' :: d :: ds, rest2)
        else ([], cs3)
      | e :: d :: rest =>
        if (e = 'e' ∨ e = 'E') ∧ d.isDigit then
          let (ds, rest2) := rest.span Char.isDigit
          (e :: d :: ds, rest2)
        else ([], cs3)
      | _ => ([], cs3)
    if frac = [] ∧ ex = [] then
      let n : Int := Int.ofNat (digitsToNat ids)
      some (PyVal.int (if sgn then -n else n), cs2)
    else
      some (PyVal.float (String.mk ((if sgn then ['-'] else []) ++ ids ++ frac ++ ex)), cs4)

mutual

/-- One JSON value, starting at the first non-whitespace character.
Mirrors Python `json.loads` (which additionally accepts the non-standard
`NaN`, `Infinity`, `-Infinity`). -/
def parseJVal : Nat → List Char → Option (PyVal × List Char)
  | 0, _ => Option.none
  | fuel + 1, cs =>
    match cs with
    | 'n' :: 'u' :: 'l' :: 'l' :: rest => some (PyVal.none, rest)
    | 't' :: 'r' :: 'u' :: 'e' :: rest => some (PyVal.bool true, rest)
    | 'f' :: 'a' :: 'l' :: 's' :: 'e' :: rest => some (PyVal.bool false, rest)
    | 'N' :: 'a' :: 'N' :: rest => some (PyVal.float "NaN", rest)
    | 'I' :: 'n' :: 'f' :: 'i' :: 'n' :: 'i' :: 't' :: 'y' :: rest =>
      some (PyVal.float "Infinity", rest)
    | '-' :: 'I' :: 'n' :: 'f' :: 'i' :: 'n' :: 'i' :: 't' :: 'y' :: rest =>
      some (PyVal.float "-Infinity", rest)
    | '"' :: rest =>
      match parseJStr (fuel + 1) [] rest with
      | some (s, r) => some (PyVal.str s, r)
      | Option.none => Option.none
    | '[' :: rest =>
      match skipWs rest with
      | ']' :: r => some (PyVal.list [], r)
      | r => parseJElems fuel [] r
    | '{' :: rest =>
      match skipWs rest with
      | '}' :: r => some (PyVal.dict [], r)
      | r => parseJMembers fuel [] r
    | c :: _ => if c = '-' ∨ c.isDigit then parseJNum cs else Option.none
    | [] => Option.none

/-- Array elements after `[`, first element at the head (whitespace skipped). -/
def parseJElems : Nat → List PyVal → List Char → Option (PyVal × List Char)
  | 0, _, _ => Option.none
  | fuel + 1, acc, cs =>
    match parseJVal fuel cs with
    | Option.none => Option.none
    | some (v, r) =>
      match skipWs r with
      | ',' :: r2 => parseJElems fuel (v :: acc) (skipWs r2)
      | ']' :: r2 => some (PyVal.list (v :: acc).reverse, r2)
      | _ => Option.none

/-- Object members after `{`, first key at the head (whitespace skipped). -/
def parseJMembers : Nat → List (String × PyVal) → List Char →
    Option (PyVal × List Char)
  | 0, _, _ => Option.none
  | fuel + 1, acc, cs =>
    match cs with
    | '"' :: rest =>
      match parseJStr (fuel + 1) [] rest with
      | Option.none => Option.none
      | some (k, r) =>
        match skipWs r with
        | ':' :: r2 =>
          match parseJVal fuel (skipWs r2) with
          | Option.none => Option.none
          | some (v, r3) =>
            match skipWs r3 with
            | ',' :: r4 => parseJMembers fuel ((k, v) :: acc) (skipWs r4)
            | '}' :: r4 => some (PyVal.dict ((k, v) :: acc).reverse, r4)
            | _ => Option.none
        | _ => Option.none
    | _ => Option.none

end

/-- Python `json.loads`: parse exactly one JSON document, allowing
surrounding whitespace; `Option.none` models `json.JSONDecodeError`. -/
def jsonLoads (s : String) : Option PyVal :=
  match parseJVal (2 * s.data.length + 4) (skipWs s.data) with
  | some (v, rest) => if skipWs rest = [] then some v else Option.none
  | Option.none => Option.none

/-! ## Subjects normalization (models.py `Olympiad.parsed_subjects`,
schemas.py `OlympiadBase.parse_subjects`) -/

/-- models.py `Olympiad.parsed_subjects`: `[]` for a stripped `"-"`; else the
`json.loads` result when it decodes; else comma-split with each token
stripped (empty tokens kept). -/
def parsedSubjects (subjects : String) : PyVal :=
  if pyStrip subjects = "-" then PyVal.list []
  else
    match jsonLoads subjects with
    | some v => v
    | Option.none =>
      PyVal.list ((pySplit subjects ',').map (fun s => PyVal.str (pyStrip s)))

/-- schemas.py `OlympiadBase.parse_subjects` on a string input: `[]` for a
stripped `"-"`; else the `json.loads` result when it decodes; else
comma-split keeping only tokens whose strip is non-empty. -/
def parseSubjects (v : String) : PyVal :=
  if pyStrip v = "-" then PyVal.list []
  else
    match jsonLoads v with
    | some j => j
    | Option.none =>
      PyVal.list ((pySplit v ',').filterMap (fun s =>
        let t := pyStrip s
        if t = "" then Option.none else some (PyVal.str t)))

/-- Is a Python value a list whose elements are all strings? -/
def isStrList : PyVal → Prop
  | PyVal.list l => ∀ v ∈ l, ∃ s, v = PyVal.str s
  | _ => False

/-- Drop empty-string elements from a Python list value; identity elsewhere.
Relates the two comma-split fallbacks. -/
def dropEmptyStrTokens : PyVal → PyVal
  | PyVal.list l => PyVal.list (l.filter (fun v =>
      match v with
      | PyVal.str t => !(t = "")
      | _ => true))
  | v => v

/-! ## Dates and the derived status (models.py `Olympiad.status`) -/

/-- Gregorian leap year, as `datetime`: divisible by 4 and not by 100
unless by 400. -/
def isLeap (y : Nat) : Bool :=
  y % 4 = 0 && (y % 100 ≠ 0 || y % 400 = 0)

/-- Days in month `m` of year `y` (`m` between 1 and 12). -/
def daysInMonth (y m : Nat) : Nat :=
  if m = 2 then (if isLeap y then 29 else 28)
  else if m = 4 ∨ m = 6 ∨ m = 9 ∨ m = 11 then 30
  else 31

/-- Days in all full years before year `y` (proleptic Gregorian, year 1
first), as `datetime.toordinal`. -/
def daysBeforeYear (y : Nat) : Nat :=
  let n := y - 1
  n * 365 + n / 4 - n / 100 + n / 400

/-- Days in the months of year `y` strictly before month `m`. -/
def daysBeforeMonth (y m : Nat) : Nat :=
  (List.range (m - 1)).foldl (fun acc i => acc + daysInMonth y (i + 1)) 0

/-- `datetime(y,m,d).toordinal()`: 1 is January 1 of year 1. -/
def toOrdinal (y m d : Nat) : Nat :=
  daysBeforeYear y + daysBeforeMonth y m + d

/-- A `datetime` instant: the day ordinal of the date and the time of day
(sub-day units; 0 is midnight).  `datetime.strptime` of a pure date format
yields time of day 0. -/
structure PyDateTime where
  ordinal : Nat
  tod : Nat
deriving Repr, DecidableEq

/-- `datetime` comparison: lexicographic on (date, time of day). -/
def dtLt (a b : PyDateTime) : Bool :=
  a.ordinal < b.ordinal || (a.ordinal = b.ordinal && a.tod < b.tod)

/-- `datetime.strptime(s, "%d.%m.%Y")`: day and month are 1–2 digit fields
(day 1–31, month 1–12), year exactly 4 digits and at least 1, the whole
string consumed, and the day valid for the month (`Option.none` models
`ValueError`).  The result is midnight of that date. -/
def strptimeDMY (s : String) : Option PyDateTime :=
  match splitOnChar '.' s.data with
  | [ds, ms, ys] =>
    if (!ds.isEmpty) && ds.all Char.isDigit && ds.length ≤ 2 &&
       (!ms.isEmpty) && ms.all Char.isDigit && ms.length ≤ 2 &&
       ys.all Char.isDigit && ys.length = 4 then
      let d := digitsToNat ds
      let m := digitsToNat ms
      let y := digitsToNat ys
      if 1 ≤ d && 1 ≤ m && m ≤ 12 && 1 ≤ y && d ≤ daysInMonth y m then
        some ⟨toOrdinal y m d, 0⟩
      else Option.none
    else Option.none
  | _ => Option.none

/-- models.py `Olympiad.status`: `"completed"` when `datetime.now()` is
after the parsed `end_date`, `"upcoming"` otherwise, `"unknown"` when the
parse raises.  `now` is the current instant. -/
def olympiadStatus (now : PyDateTime) (end_date : String) : String :=
  match strptimeDMY end_date with
  | some endDt => if dtLt endDt now then "completed" else "upcoming"
  | Option.none => "unknown"

/-! ## Storage model (models.py tables, database.py session state)

Rows of the five tables.  The `selected_olympiads` relationship (join table
`user_selected_olympiad`) is carried on the user as the list of subscribed
olympiad ids, in relationship order, exactly the view crud.py manipulates.
Timestamps are abstract `Nat`s. -/

structure UserRec where
  id : Nat
  username : String
  password : String
  is_active : Bool := true
  n_days_notice : Int := 7
  selected_olympiads : List Nat := []
  selected_subjects : List String := []
  selected_levels : List String := []
deriving Repr, DecidableEq

structure OlympiadRec where
  id : Nat
  title : String := ""
  start_date : String := ""
  end_date : String := ""
  duration : String := ""
  level : String := ""
  subjects : String := ""
  university : String := ""
  registration_link : String := ""
deriving Repr, DecidableEq

structure CommentRec where
  id : Nat
  text : String
  created_at : Nat := 0
  author_id : Nat
  olympiad_id : Nat
deriving Repr, DecidableEq

structure ParticipationRec where
  user_id : Nat
  olympiad_id : Nat
  participation_date : Nat := 0
deriving Repr, DecidableEq

structure NotificationRec where
  id : Nat
  message : String
  sent_at : Nat := 0
  is_read : Bool := false
  user_id : Nat
  olympiad_id : Nat
deriving Repr, DecidableEq

/-- The database state: the five tables. -/
structure DB where
  users : List UserRec := []
  olympiads : List OlympiadRec := []
  comments : List CommentRec := []
  participations : List ParticipationRec := []
  notifications : List NotificationRec := []
deriving Repr, DecidableEq

/-! ## Generic CRUD engine (crud.py `BaseCRUD`) -/

/-- `BaseCRUD.get(db, id=...)` for the users table: first row matching the
filter, `Option.none` when absent. -/
def getUser (db : DB) (uid : Nat) : Option UserRec :=
  db.users.find? (fun u => u.id = uid)

/-- `BaseCRUD.get(db, id=...)` for the olympiads table. -/
def getOlympiad (db : DB) (oid : Nat) : Option OlympiadRec :=
  db.olympiads.find? (fun o => o.id = oid)

/-- `BaseCRUD.get_all`: apply the equality-filter conjunction when any
filter is given, then paginate with OFFSET `skip` / LIMIT `limit`
(defaults 0 and 100). -/
def getAll {α : Type} (rows : List α) (filters : List (α → Bool))
    (skip : Nat := 0) (limit : Nat := 100) : List α :=
  let q := if filters.isEmpty then rows else
    rows.filter (fun r => filters.all (fun p => p r))
  (q.drop skip).take limit

/-- Modelled from the spec: `auth.get_password_hash` (backend/auth.py is
absent from the capture).  A bcrypt-class hash — modelled as a tagged,
injective transformation of the plaintext, so the stored form is never the
plaintext itself. -/
def getPasswordHash (p : String) : String :=
  "$2b$12$" ++ p

/-- Next autoincrement id for the users table. -/
def nextUserId (db : DB) : Nat :=
  (db.users.map (fun u => u.id)).foldl max 0 + 1

/-- Next autoincrement id for the comments table. -/
def nextCommentId (db : DB) : Nat :=
  (db.comments.map (fun c => c.id)).foldl max 0 + 1

/-- `BaseCRUD.create` for the User model, as called by the /register route
with `username` and `password`: the User-specific branch replaces the
password with its hash before insert; commit enforces the unique-username
constraint, and a storage error is re-raised after rollback
(`Except.error`). -/
def userCreate (db : DB) (username password : String) :
    Except String (UserRec × DB) :=
  let hashed := getPasswordHash password
  if db.users.any (fun u => u.username = username) then
    Except.error "UNIQUE constraint failed: users.username"
  else
    let u : UserRec := { id := nextUserId db, username := username, password := hashed }
    Except.ok (u, { db with users := db.users ++ [u] })

/-! ## Response schemas used by the claims (schemas.py) -/

/-- schemas.py `UserResponse`: the projected user payload — no password
field exists in the schema. -/
structure UserResponse where
  id : Nat
  username : String
  is_active : Bool
  n_days_notice : Int
  selected_olympiads : List Nat
  selected_subjects : List String
  selected_levels : List String
deriving Repr, DecidableEq

/-- schemas.py `UserResponse.from_orm`: projects `selected_olympiads` to
bare olympiad ids and carries no password. -/
def UserResponse.from_orm (u : UserRec) : UserResponse :=
  { id := u.id
    username := u.username
    is_active := u.is_active
    n_days_notice := u.n_days_notice
    selected_olympiads := u.selected_olympiads
    selected_subjects := u.selected_subjects
    selected_levels := u.selected_levels }

/-- schemas.py `UserUpdate` after `.dict(exclude_unset=True)`:
`Option.none` models a field that was not supplied.  (A field explicitly
supplied as JSON `null` is not modelled; no claim exercises it.) -/
structure UserUpdate where
  n_days_notice : Option Int := Option.none
  selected_olympiads : Option (List Nat) := Option.none
  selected_subjects : Option (List String) := Option.none
  selected_levels : Option (List String) := Option.none
deriving Repr, DecidableEq

/-- `db.query(Olympiad).filter(Olympiad.id.in_(ids)).all()`: the olympiad
rows whose id is in `ids`, in table order — projected to their ids, which
is how the subscription list stores the relationship. -/
def resolveOlympiadIds (db : DB) (ids : List Nat) : List Nat :=
  (db.olympiads.filter (fun o => o.id ∈ ids)).map (fun o => o.id)

/-- Replace the stored row of user `uid` with `u`. -/
def putUser (db : DB) (uid : Nat) (u : UserRec) : DB :=
  { db with users := db.users.map (fun w => if w.id = uid then u else w) }

/-- `BaseCRUD.update` for the User model with filter `{id = uid}`, as
called by PUT /profile: `Option.none` when the user is absent; otherwise a
supplied `selected_olympiads` id list is resolved against storage and
replaces the subscription set, every other supplied field is assigned
verbatim, and the refreshed row is returned with the new state. -/
def userUpdate (db : DB) (uid : Nat) (d : UserUpdate) :
    Option (UserRec × DB) :=
  match getUser db uid with
  | Option.none => Option.none
  | some u =>
    let u1 :=
      match d.selected_olympiads with
      | some ids => { u with selected_olympiads := resolveOlympiadIds db ids }
      | Option.none => u
    let u2 :=
      match d.n_days_notice with
      | some n => { u1 with n_days_notice := n }
      | Option.none => u1
    let u3 :=
      match d.selected_subjects with
      | some s => { u2 with selected_subjects := s }
      | Option.none => u2
    let u4 :=
      match d.selected_levels with
      | some s => { u3 with selected_levels := s }
      | Option.none => u3
    some (u4, putUser db uid u4)

/-! ## Subscription service (crud.py `SubscriptionService`) -/

/-- `SubscriptionService.add_subscription`: load both rows by id; `false`
when either is absent; `false` without state change when already
subscribed; otherwise append to the relationship and commit, `true`. -/
def addSubscription (db : DB) (user_id olympiad_id : Nat) : Bool × DB :=
  match getUser db user_id, getOlympiad db olympiad_id with
  | some user, some olympiad =>
    if olympiad.id ∈ user.selected_olympiads then (false, db)
    else
      (true, putUser db user_id
        { user with selected_olympiads := user.selected_olympiads ++ [olympiad.id] })
  | _, _ => (false, db)

/-- `SubscriptionService.remove_subscription`: load both rows by id;
`false` when either is absent; Python `list.remove` removes the first
occurrence and its `ValueError` (olympiad not in the list) is caught and
turned into `false`. -/
def removeSubscription (db : DB) (user_id olympiad_id : Nat) : Bool × DB :=
  match getUser db user_id, getOlympiad db olympiad_id with
  | some user, some olympiad =>
    if olympiad.id ∈ user.selected_olympiads then
      (true, putUser db user_id
        { user with selected_olympiads := user.selected_olympiads.erase olympiad.id })
    else (false, db)
  | _, _ => (false, db)

/-! ## Participation service (crud.py `ParticipationService`) -/

/-- `ParticipationService.create_participation` →
`BaseCRUD.create(db, user_id=..., olympiad_id=...)`: commit enforces the
composite primary key `(user_id, olympiad_id)` and the two foreign keys;
on a storage error the engine rolls back and re-raises (`Except.error`). -/
def createParticipation (db : DB) (user_id olympiad_id : Nat) (now : Nat) :
    Except String (ParticipationRec × DB) :=
  if db.participations.any (fun p => p.user_id = user_id ∧ p.olympiad_id = olympiad_id) then
    Except.error "UNIQUE constraint failed: participations primary key"
  else if !(db.users.any (fun u => u.id = user_id)) ||
          !(db.olympiads.any (fun o => o.id = olympiad_id)) then
    Except.error "FOREIGN KEY constraint failed"
  else
    let p : ParticipationRec :=
      { user_id := user_id, olympiad_id := olympiad_id, participation_date := now }
    Except.ok (p, { db with participations := db.participations ++ [p] })

/-- `ParticipationService.delete_participation`: a direct bulk delete of
rows matching both `user_id` and `olympiad_id`, committed; returns whether
the deleted row count was positive. -/
def deleteParticipation (db : DB) (user_id olympiad_id : Nat) : Bool × DB :=
  let matches1 := db.participations.filter
    (fun p => p.user_id = user_id ∧ p.olympiad_id = olympiad_id)
  let remaining := db.participations.filter
    (fun p => ¬(p.user_id = user_id ∧ p.olympiad_id = olympiad_id))
  (matches1.length > 0, { db with participations := remaining })

/-- An HTTP outcome of a route: a payload or an HTTPException status. -/
inductive ApiResult (α : Type) where
  | ok : α → ApiResult α
  | httpError : Nat → String → ApiResult α
deriving Repr, DecidableEq

/-- main.py `delete_participation` route: delegates to the service with the
id of the current user and converts a `false` outcome into HTTP 404. -/
def deleteParticipationRoute (db : DB) (current_user_id olympiad_id : Nat) :
    ApiResult String × DB :=
  let (success, db1) := deleteParticipation db current_user_id olympiad_id
  if success then (ApiResult.ok "success", db1)
  else (ApiResult.httpError 404 "Participation not found", db1)

/-! ## Comment service (crud.py `CommentService`) -/

/-- `CommentService.create_comment` → `BaseCRUD.create(db, text=...,
author_id=..., olympiad_id=...)`: crud.py performs no existence check on
either id; commit enforces the two declared foreign keys
(models.py `ForeignKey("users.id")` / `ForeignKey("olympiads.id")`), and
the except branch of the engine rolls back and re-raises the storage error
(`Except.error`). -/
def createComment (db : DB) (user_id olympiad_id : Nat) (text : String)
    (now : Nat) : Except String (CommentRec × DB) :=
  if !(db.users.any (fun u => u.id = user_id)) ||
     !(db.olympiads.any (fun o => o.id = olympiad_id)) then
    Except.error "FOREIGN KEY constraint failed"
  else
    let c : CommentRec :=
      { id := nextCommentId db, text := text, created_at := now,
        author_id := user_id, olympiad_id := olympiad_id }
    Except.ok (c, { db with comments := db.comments ++ [c] })

/-! ## Olympiad filter service (crud.py `OlympiadFilterService`) -/

mutual

/-- MySQL `JSON_CONTAINS(target, candidate)` for a JSON-string candidate
`json.dumps(subj)`: a scalar candidate is contained in an array iff it is
contained in some element, and in a scalar iff equal.  An
unparsable target (not valid JSON) yields no match. -/
def jsonScalarContains (subj : String) : PyVal → Bool
  | PyVal.str t => t = subj
  | PyVal.list l => jsonScalarContainsList subj l
  | _ => false

/-- Containment of a scalar candidate in some element of an array. -/
def jsonScalarContainsList (subj : String) : List PyVal → Bool
  | [] => false
  | v :: vs => jsonScalarContains subj v || jsonScalarContainsList subj vs

end

/-- `func.json_contains(Olympiad.subjects, json.dumps(subj))` on a stored
subjects string. -/
def jsonContains (stored subj : String) : Bool :=
  match jsonLoads stored with
  | some t => jsonScalarContains subj t
  | Option.none => false

/-- schemas.py `FilterSettings` after `.dict(exclude_unset=True)`:
`Option.none` models an absent dimension (`filters.get` then yields
`None`). -/
structure FilterSettings where
  levels : Option (List String) := Option.none
  subjects : Option (List String) := Option.none
  universities : Option (List String) := Option.none
deriving Repr, DecidableEq

/-- Python truthiness of `filters.get(key)` for a list-valued filter:
present and non-empty. -/
def truthyList {α : Type} : Option (List α) → Bool
  | some (_ :: _) => true
  | _ => false

/-- `OlympiadFilterService.get_filtered_olympiads`: starting from the full
catalog, narrow by each dimension only when its walrus-tested filter value
is truthy; the subjects conditions are ANDed. -/
def getFilteredOlympiads (db : DB) (filters : FilterSettings) :
    List OlympiadRec :=
  let q1 := db.olympiads
  let q2 :=
    match filters.levels with
    | some (l :: ls) => q1.filter (fun o => o.level ∈ l :: ls)
    | _ => q1
  let q3 :=
    match filters.subjects with
    | some (s :: ss) =>
      q2.filter (fun o => (s :: ss).all (fun subj => jsonContains o.subjects subj))
    | _ => q2
  let q4 :=
    match filters.universities with
    | some (u :: us) => q3.filter (fun o => o.university ∈ u :: us)
    | _ => q3
  q4

/-! ## A small concrete database used by the witnesses -/

/-- One user (id 1, subscribed to olympiad 2) and two olympiads
(ids 2 and 3) with JSON-encoded subjects. -/
def dbW : DB :=
  { users := [{ id := 1, username := "alice", password := "h",
                selected_olympiads := [2], selected_subjects := ["Math"],
                selected_levels := ["1"] }]
    olympiads := [{ id := 2, subjects := "[\"Math\"]" },
                  { id := 3, subjects := "[\"Math\", \"Physics\"]" }] }

/-! ## Theorems for the claims -/

/-- Claim C10: a stored subjects string that is valid JSON but not a JSON
array — here `"123"` — makes the model `parsed_subjects` return the
decoded JSON value as-is (an int, not a list of strings), because the
comma-split fallback fires only on decode failure; the schema validator
shares this decode behaviour. -/
theorem C10_nonarray_json_passthrough :
    jsonLoads "123" = some (PyVal.int 123) ∧
    parsedSubjects "123" = PyVal.int 123 ∧
    parseSubjects "123" = PyVal.int 123 ∧
    ¬ isStrList (PyVal.int 123) :=
  ⟨rfl, rfl, rfl, fun h => h⟩

/-- Claim C8: for every current instant and stored `end_date` string, the
derived status is `"unknown"` exactly when `DD.MM.YYYY` parsing fails,
`"completed"` when the parsed end date lies before the current instant,
`"upcoming"` otherwise; the derivation is total and always yields one of
the three strings (it never raises). -/
theorem C8_status_derivation (now : PyDateTime) (e : String) :
    (strptimeDMY e = Option.none → olympiadStatus now e = "unknown") ∧
    (∀ endDt, strptimeDMY e = some endDt →
      (dtLt endDt now = true → olympiadStatus now e = "completed") ∧
      (dtLt endDt now = false → olympiadStatus now e = "upcoming")) ∧
    (olympiadStatus now e = "completed" ∨ olympiadStatus now e = "upcoming" ∨
      olympiadStatus now e = "unknown") := by
  refine ⟨fun h => by simp [olympiadStatus, h], fun endDt h => ⟨?_, ?_⟩, ?_⟩
  · intro hlt; simp [olympiadStatus, h, hlt]
  · intro hlt; simp [olympiadStatus, h, hlt]
  · unfold olympiadStatus
    cases strptimeDMY e with
    | none => right; right; rfl
    | some d =>
      by_cases hlt : dtLt d now <;> simp [hlt]

/-- Witness for C8 at the three test dates of the spec, with the current
instant taken as midnight, 12.10.2026. -/
theorem C8_status_derivation_witness :
    olympiadStatus ⟨toOrdinal 2026 10 12, 0⟩ "01.01.2000" = "completed" ∧
    olympiadStatus ⟨toOrdinal 2026 10 12, 0⟩ "01.01.2999" = "upcoming" ∧
    olympiadStatus ⟨toOrdinal 2026 10 12, 0⟩ "not-a-date" = "unknown" :=
  ⟨((C8_status_derivation ⟨toOrdinal 2026 10 12, 0⟩ "01.01.2000").2.1
      ⟨toOrdinal 2000 1 1, 0⟩ rfl).1 rfl,
   ((C8_status_derivation ⟨toOrdinal 2026 10 12, 0⟩ "01.01.2999").2.1
      ⟨toOrdinal 2999 1 1, 0⟩ rfl).2 rfl,
   (C8_status_derivation ⟨toOrdinal 2026 10 12, 0⟩ "not-a-date").1 rfl⟩

/-- Claim C9: `get_all` paginates with `skip` defaulting to 0 and `limit`
to 100: with the defaults it returns the first at-most-100 matching rows;
an empty filter set matches everything subject to pagination; and a skip
beyond the (filtered) table size returns the empty list. -/
theorem C9_get_all_pagination {α : Type} (rows : List α)
    (filters : List (α → Bool)) :
    (getAll rows filters).length ≤ 100 ∧
    getAll rows filters =
      (rows.filter (fun r => filters.all (fun p => p r))).take 100 ∧
    getAll rows [] = rows.take 100 ∧
    (∀ skip limit, rows.length ≤ skip → getAll rows filters skip limit = []) := by
  have hq : ∀ (fs : List (α → Bool)),
      (if fs.isEmpty then rows else rows.filter (fun r => fs.all (fun p => p r))) =
        rows.filter (fun r => fs.all (fun p => p r)) := by
    intro fs
    cases fs with
    | nil => simp
    | cons f fs => simp
  refine ⟨?_, ?_, ?_, ?_⟩
  · simp only [getAll, hq, List.drop_zero]
    exact le_trans (List.length_take_le _ _) (le_refl _)
  · simp only [getAll, hq, List.drop_zero]
  · simp [getAll]
  · intro skip limit hskip
    have hlen : (rows.filter (fun r => filters.all (fun p => p r))).length ≤ skip :=
      le_trans (List.length_filter_le _ _) hskip
    simp only [getAll, hq]
    rw [List.drop_eq_nil_of_le hlen, List.take_nil]

/-- Witness for C9: a three-row table with no filters and a huge skip. -/
theorem C9_get_all_pagination_witness :
    getAll [1, 2, 3] ([] : List (Nat → Bool)) 100000 100 = [] :=
  (C9_get_all_pagination [1, 2, 3] []).2.2.2 100000 100 (by decide)

/-- Claim C3: the olympiad filter narrows the catalog by a dimension only
when that filter value is present and non-empty; the subjects constraint is
conjunctive (an olympiad matches only when it contains every requested
subject); and with no constraint present the full catalog is returned
unchanged. -/
theorem C3_filter_semantics (db : DB) (f : FilterSettings) (o : OlympiadRec) :
    (o ∈ getFilteredOlympiads db f ↔ o ∈ db.olympiads ∧
      (truthyList f.levels = true → o.level ∈ f.levels.getD []) ∧
      (truthyList f.subjects = true →
        ∀ subj ∈ f.subjects.getD [], jsonContains o.subjects subj = true) ∧
      (truthyList f.universities = true → o.university ∈ f.universities.getD [])) ∧
    getFilteredOlympiads db ⟨Option.none, Option.none, Option.none⟩ = db.olympiads := by
  constructor
  · obtain ⟨lv, sb, un⟩ := f
    rcases lv with _ | (_ | ⟨l, ls⟩) <;> rcases sb with _ | (_ | ⟨s, ss⟩) <;>
      rcases un with _ | (_ | ⟨uv, us⟩) <;>
        simp [getFilteredOlympiads, truthyList, List.mem_filter,
          List.all_eq_true, and_assoc] <;> tauto
  · rfl

/-- The comma-split fallback of the schema validator equals that of the model
with the empty tokens filtered out. -/
theorem filterMap_strip_eq (l : List String) :
    l.filterMap (fun s =>
      let t := pyStrip s
      if t = "" then Option.none else some (PyVal.str t)) =
    (l.map (fun s => PyVal.str (pyStrip s))).filter (fun v =>
      match v with
      | PyVal.str t => !(t = "")
      | _ => true) := by
  induction l with
  | nil => rfl
  | cons a as ih =>
    simp only [List.filterMap_cons, List.map_cons, List.filter_cons]
    by_cases h : pyStrip a = "" <;> simp [h, ih]

/-- Claim C1 fails as stated: on the stored string "Math," (not "-", not
JSON-decodable) the model `parsed_subjects` keeps the empty token that
the comma split produces, while the schema validator drops it — the two
normalizations are not identical and the model does not drop empty
tokens. -/
theorem C1_counterexample :
    parsedSubjects "Math," = PyVal.list [PyVal.str "Math", PyVal.str ""] ∧
    parseSubjects "Math," = PyVal.list [PyVal.str "Math"] ∧
    parsedSubjects "Math," ≠ parseSubjects "Math," := by
  refine ⟨rfl, rfl, fun h => ?_⟩
  have h2 : PyVal.list [PyVal.str "Math", PyVal.str ""] =
      PyVal.list [PyVal.str "Math"] := h
  simp at h2

/-- Claim C1 (amended): at both the validation boundary and in the model,
a stored subjects string whose strip is "-" yields the empty list and a
JSON-decodable string yields the decoded value; on the comma-split
fallback the two differ only in that the schema validator drops the empty
tokens the model keeps. -/
theorem C1_subjects_normalization (s : String) :
    (pyStrip s = "-" →
      parsedSubjects s = PyVal.list [] ∧ parseSubjects s = PyVal.list []) ∧
    (∀ v, pyStrip s ≠ "-" → jsonLoads s = some v →
      parsedSubjects s = v ∧ parseSubjects s = v) ∧
    (parseSubjects s = parsedSubjects s ∨
      (pyStrip s ≠ "-" ∧ jsonLoads s = Option.none ∧
        parseSubjects s = dropEmptyStrTokens (parsedSubjects s))) := by
  refine ⟨?_, ?_, ?_⟩
  · intro hd
    constructor
    · unfold parsedSubjects; rw [if_pos hd]
    · unfold parseSubjects; rw [if_pos hd]
  · intro v hd hj
    constructor
    · unfold parsedSubjects; rw [if_neg hd, hj]
    · unfold parseSubjects; rw [if_neg hd, hj]
  · by_cases hd : pyStrip s = "-"
    · left
      unfold parsedSubjects parseSubjects
      rw [if_pos hd, if_pos hd]
    · cases hj : jsonLoads s with
      | some v =>
        left
        unfold parsedSubjects parseSubjects
        rw [if_neg hd, if_neg hd, hj]
      | none =>
        right
        refine ⟨hd, rfl, ?_⟩
        unfold parsedSubjects parseSubjects
        rw [if_neg hd, if_neg hd, hj]
        rw [filterMap_strip_eq]
        rfl

/-- Witness for C1 (amended): "-" normalizes to the empty list at both
boundaries, and a JSON array decodes identically at both. -/
theorem C1_subjects_normalization_witness :
    (parsedSubjects "-" = PyVal.list [] ∧ parseSubjects "-" = PyVal.list []) ∧
    (parsedSubjects "[\"Math\"]" = PyVal.list [PyVal.str "Math"] ∧
      parseSubjects "[\"Math\"]" = PyVal.list [PyVal.str "Math"]) :=
  ⟨(C1_subjects_normalization "-").1 rfl,
   (C1_subjects_normalization "[\"Math\"]").2.1
      (PyVal.list [PyVal.str "Math"]) (by decide) rfl⟩

/-- `deleteParticipation` reports `true` exactly when some stored row
matches both ids. -/
theorem deleteParticipation_fst_iff (db : DB) (uid oid : Nat) :
    (deleteParticipation db uid oid).1 = true ↔
      ∃ p ∈ db.participations, p.user_id = uid ∧ p.olympiad_id = oid := by
  unfold deleteParticipation
  simp only [gt_iff_lt, decide_eq_true_eq, List.length_pos_iff_exists_mem]
  constructor
  · rintro ⟨p, hp⟩
    rw [List.mem_filter] at hp
    exact ⟨p, hp.1, by simpa using hp.2⟩
  · rintro ⟨p, hmem, hmatch⟩
    exact ⟨p, List.mem_filter.mpr ⟨hmem, by simpa using hmatch⟩⟩

/-- After the bulk delete, no row matching the pair remains. -/
theorem deleteParticipation_removes (db : DB) (uid oid : Nat) :
    (deleteParticipation (deleteParticipation db uid oid).2 uid oid).1 = false := by
  rw [Bool.eq_false_iff]
  intro htrue
  obtain ⟨p, hmem, hmatch⟩ := (deleteParticipation_fst_iff _ uid oid).mp htrue
  unfold deleteParticipation at hmem
  simp only [List.mem_filter, decide_eq_true_eq] at hmem
  exact hmem.2 hmatch

/-- Claim C6: participation deletion returns `true` iff a row matching
both `user_id` and `olympiad_id` was removed; after creating a
participation for a pair the first deletion returns `true` and a second
deletion returns `false`; and the API route answers 404 exactly on a
`false` outcome. -/
theorem C6_participation_delete (db : DB) (uid oid : Nat) :
    ((deleteParticipation db uid oid).1 = true ↔
      ∃ p ∈ db.participations, p.user_id = uid ∧ p.olympiad_id = oid) ∧
    (∀ now p db1, createParticipation db uid oid now = Except.ok (p, db1) →
      (deleteParticipation db1 uid oid).1 = true ∧
      (deleteParticipation (deleteParticipation db1 uid oid).2 uid oid).1 = false) ∧
    (∀ db0 : DB,
      (deleteParticipationRoute db0 uid oid).1 =
          ApiResult.httpError 404 "Participation not found" ↔
        (deleteParticipation db0 uid oid).1 = false) := by
  refine ⟨deleteParticipation_fst_iff db uid oid, ?_, ?_⟩
  · intro now p db1 h
    unfold createParticipation at h
    split at h
    · simp at h
    · split at h
      · simp at h
      · rw [Except.ok.injEq, Prod.mk.injEq] at h
        obtain ⟨-, hdb1⟩ := h
        subst hdb1
        refine ⟨?_, deleteParticipation_removes _ uid oid⟩
        rw [deleteParticipation_fst_iff]
        exact ⟨{ user_id := uid, olympiad_id := oid, participation_date := now },
          by simp, rfl, rfl⟩
  · intro db0
    unfold deleteParticipationRoute
    rcases hsd : deleteParticipation db0 uid oid with ⟨s, d1⟩
    cases s <;> simp

/-- The sample database after user 1 participates in olympiad 2. -/
def dbWP : DB :=
  { dbW with participations := [{ user_id := 1, olympiad_id := 2, participation_date := 0 }] }

/-- Witness for C6: on the sample database, user 1 creates a participation
in olympiad 2; the first deletion succeeds, the second reports nothing to
delete. -/
theorem C6_participation_delete_witness :
    (deleteParticipation dbWP 1 2).1 = true ∧
    (deleteParticipation (deleteParticipation dbWP 1 2).2 1 2).1 = false :=
  (C6_participation_delete dbW 1 2).2.1 0
    { user_id := 1, olympiad_id := 2, participation_date := 0 } dbWP rfl

/-- Claim C2 fails as stated: the crud.py `CommentService.create_comment`
checks neither id; creating a comment for the nonexistent olympiad id 99
(the author exists) makes the commit violate the declared foreign key, and
the CRUD engine re-raises the storage error after rollback instead of
returning a silent boolean/empty outcome. -/
theorem C2_counterexample :
    createComment dbW 1 99 "hi" 0 = Except.error "FOREIGN KEY constraint failed" := rfl

/-- Claim C2 (amended): the subscription operations and participation
deletion handle a missing user/olympiad silently (boolean `false`,
unchanged state); comment creation is the exception — it performs no
existence check, and a nonexistent olympiad id surfaces as a propagated
storage error, not a silent outcome. -/
theorem C2_absence_soft_handling (db : DB) (uid oid : Nat) :
    (getUser db uid = Option.none ∨ getOlympiad db oid = Option.none →
      addSubscription db uid oid = (false, db) ∧
      removeSubscription db uid oid = (false, db)) ∧
    ((∀ p ∈ db.participations, ¬(p.user_id = uid ∧ p.olympiad_id = oid)) →
      deleteParticipation db uid oid = (false, db)) ∧
    (∀ text now, db.olympiads.any (fun o => o.id = oid) = false →
      ∃ e, createComment db uid oid text now = Except.error e) := by
  refine ⟨?_, ?_, ?_⟩
  · intro habs
    cases hu : getUser db uid with
    | none =>
      cases ho : getOlympiad db oid <;>
        simp [addSubscription, removeSubscription, hu, ho]
    | some u =>
      cases ho : getOlympiad db oid with
      | none => simp [addSubscription, removeSubscription, hu, ho]
      | some o => rcases habs with h | h <;> simp_all
  · intro hnone
    unfold deleteParticipation
    have hfil : db.participations.filter
        (fun p => p.user_id = uid ∧ p.olympiad_id = oid) = [] := by
      rw [List.filter_eq_nil_iff]
      intro p hp
      simpa using hnone p hp
    have hkeep : db.participations.filter
        (fun p => ¬(p.user_id = uid ∧ p.olympiad_id = oid)) = db.participations := by
      rw [List.filter_eq_self]
      intro p hp
      exact decide_eq_true (hnone p hp)
    rw [hfil, hkeep]
    rfl
  · intro text now hko
    refine ⟨"FOREIGN KEY constraint failed", ?_⟩
    unfold createComment
    rw [if_pos (by rw [hko]; simp)]

/-- Witness for C2 (amended): on the sample database, user id 5 does not
exist, so subscribing is a silent `false`; no participation row matches
(5, 2); and a comment for the nonexistent olympiad 99 errors. -/
theorem C2_absence_soft_handling_witness :
    (addSubscription dbW 5 2 = (false, dbW) ∧
      removeSubscription dbW 5 2 = (false, dbW)) ∧
    deleteParticipation dbW 5 2 = (false, dbW) ∧
    (∃ e, createComment dbW 1 99 "hi" 0 = Except.error e) :=
  ⟨(C2_absence_soft_handling dbW 5 2).1 (Or.inl rfl),
   (C2_absence_soft_handling dbW 5 2).2.1 (by simp [dbW]),
   (C2_absence_soft_handling dbW 1 99).2.2 "hi" 0 (by decide)⟩

/-- Replacing the row that `find?` located makes `find?` return the
replacement, provided the replacement still matches the id filter. -/
theorem find?_map_update (l : List UserRec) (uid : Nat) (u v : UserRec)
    (h : l.find? (fun w => w.id = uid) = some u) (hv : v.id = uid) :
    (l.map (fun w => if w.id = uid then v else w)).find?
      (fun w => w.id = uid) = some v := by
  induction l with
  | nil => simp at h
  | cons a as ih =>
    by_cases ha : a.id = uid
    · simp only [List.map_cons, if_pos ha]
      exact List.find?_cons_of_pos _ (by simpa using hv)
    · rw [List.find?_cons_of_neg _ (by simpa using ha)] at h
      simp only [List.map_cons, if_neg ha]
      rw [List.find?_cons_of_neg _ (by simpa using ha)]
      exact ih h

/-- `getUser` after `putUser` for the same id yields the stored
replacement. -/
theorem getUser_putUser (db : DB) (uid : Nat) (u v : UserRec)
    (h : getUser db uid = some u) (hv : v.id = uid) :
    getUser (putUser db uid v) uid = some v :=
  find?_map_update db.users uid u v h hv

/-- Claim C5: subscription addition is idempotent — a first add on an
unsubscribed pair succeeds appending exactly one relation, and a second
add returns `false` without modifying state; removal of a non-held
subscription returns `false` without state change; and a missing user or
olympiad makes both operations return `false` without state change (and
without raising). -/
theorem C5_subscription_idempotent (db : DB) (uid oid : Nat) :
    (∀ u o, getUser db uid = some u → getOlympiad db oid = some o →
      oid ∉ u.selected_olympiads →
      addSubscription db uid oid =
        (true, putUser db uid
          { u with selected_olympiads := u.selected_olympiads ++ [oid] }) ∧
      (u.selected_olympiads ++ [oid]).count oid = 1 ∧
      addSubscription (addSubscription db uid oid).2 uid oid =
        (false, (addSubscription db uid oid).2)) ∧
    (∀ u o, getUser db uid = some u → getOlympiad db oid = some o →
      oid ∉ u.selected_olympiads →
      removeSubscription db uid oid = (false, db)) ∧
    (getUser db uid = Option.none →
      addSubscription db uid oid = (false, db) ∧
      removeSubscription db uid oid = (false, db)) ∧
    (getOlympiad db oid = Option.none →
      addSubscription db uid oid = (false, db) ∧
      removeSubscription db uid oid = (false, db)) := by
  refine ⟨?_, ?_, ?_, ?_⟩
  · intro u o hu ho hmem
    have hoid : o.id = oid := by simpa using List.find?_some ho
    subst hoid
    have hadd1 : addSubscription db uid o.id =
        (true, putUser db uid
          { u with selected_olympiads := u.selected_olympiads ++ [o.id] }) := by
      unfold addSubscription
      rw [hu, ho]
      exact if_neg hmem
    refine ⟨hadd1, ?_, ?_⟩
    · rw [List.count_append]
      rw [List.count_eq_zero.mpr hmem]
      simp
    · simp only [hadd1]
      have hu2 : getUser (putUser db uid
          { u with selected_olympiads := u.selected_olympiads ++ [o.id] }) uid =
          some { u with selected_olympiads := u.selected_olympiads ++ [o.id] } := by
        refine getUser_putUser db uid u _ hu ?_
        simpa using List.find?_some hu
      unfold addSubscription
      rw [hu2]
      rw [show getOlympiad (putUser db uid
          { u with selected_olympiads := u.selected_olympiads ++ [o.id] }) o.id =
          some o from ho]
      exact if_pos (by simp)
  · intro u o hu ho hmem
    have hoid : o.id = oid := by simpa using List.find?_some ho
    subst hoid
    unfold removeSubscription
    rw [hu, ho]
    exact if_neg hmem
  · intro hu
    cases ho : getOlympiad db oid <;>
      simp [addSubscription, removeSubscription, hu, ho]
  · intro ho
    cases hu : getUser db uid <;>
      simp [addSubscription, removeSubscription, hu, ho]

/-- Witness for C5: on the sample database user 1 is not yet subscribed to
olympiad 3 — the first add succeeds with exactly one relation, the second
is a no-op; and an absent user id 5 yields silent `false`s. -/
theorem C5_subscription_idempotent_witness :
    (addSubscription dbW 1 3 =
      (true, putUser dbW 1
        { id := 1, username := "alice", password := "h",
          selected_olympiads := [2, 3], selected_subjects := ["Math"],
          selected_levels := ["1"] }) ∧
      ([2, 3] : List Nat).count 3 = 1 ∧
      addSubscription (addSubscription dbW 1 3).2 1 3 =
        (false, (addSubscription dbW 1 3).2)) ∧
    (addSubscription dbW 5 3 = (false, dbW) ∧
      removeSubscription dbW 5 3 = (false, dbW)) :=
  ⟨(C5_subscription_idempotent dbW 1 3).1
      { id := 1, username := "alice", password := "h",
        selected_olympiads := [2], selected_subjects := ["Math"],
        selected_levels := ["1"] }
      { id := 3, subjects := "[\"Math\", \"Physics\"]" } rfl rfl (by decide),
   (C5_subscription_idempotent dbW 5 3).2.2.1 rfl⟩

/-- `resolveOlympiadIds` of the empty id list is empty. -/
theorem resolveOlympiadIds_nil (db : DB) : resolveOlympiadIds db [] = [] := by
  simp [resolveOlympiadIds]

/-- Claim C4: a user update applies only the supplied fields — with only
`n_days_notice` supplied the result is the stored row with just that field
replaced — and a supplied `selected_olympiads` id list replaces the entire
subscription set with its resolution against storage, so the empty list
clears all subscriptions. -/
theorem C4_update_frame (db : DB) (uid : Nat) :
    (∀ n u1 db1,
      userUpdate db uid { n_days_notice := some n } = some (u1, db1) →
      ∃ u, getUser db uid = some u ∧
        u1 = { u with n_days_notice := n } ∧ db1 = putUser db uid u1) ∧
    (∀ d ids u1 db1, d.selected_olympiads = some ids →
      userUpdate db uid d = some (u1, db1) →
      u1.selected_olympiads = resolveOlympiadIds db ids) ∧
    (∀ d u1 db1, d.selected_olympiads = some [] →
      userUpdate db uid d = some (u1, db1) →
      u1.selected_olympiads = []) := by
  have hrep : ∀ d ids u1 db1, d.selected_olympiads = some ids →
      userUpdate db uid d = some (u1, db1) →
      u1.selected_olympiads = resolveOlympiadIds db ids := by
    intro d ids u1 db1 hso h
    obtain ⟨dn, dso, dss, dsl⟩ := d
    simp only at hso
    subst hso
    unfold userUpdate at h
    cases hu : getUser db uid with
    | none => rw [hu] at h; cases h
    | some u =>
      rw [hu] at h
      rw [Option.some.injEq, Prod.mk.injEq] at h
      obtain ⟨hu1, -⟩ := h
      subst hu1
      cases dn <;> cases dss <;> cases dsl <;> rfl
  refine ⟨?_, hrep, ?_⟩
  · intro n u1 db1 h
    unfold userUpdate at h
    cases hu : getUser db uid with
    | none => rw [hu] at h; cases h
    | some u =>
      rw [hu] at h
      rw [Option.some.injEq, Prod.mk.injEq] at h
      obtain ⟨hu1, hdb1⟩ := h
      subst hu1
      subst hdb1
      exact ⟨u, rfl, rfl, rfl⟩
  · intro d u1 db1 hso h
    rw [hrep d [] u1 db1 hso h]
    exact resolveOlympiadIds_nil db

/-- Witness for C4: on the sample database, updating user 1 with only
`n_days_notice := 3` changes just that field; updating with
`selected_olympiads := []` clears the subscription set. -/
theorem C4_update_frame_witness :
    (∃ u, getUser dbW 1 = some u ∧
      ({ id := 1, username := "alice", password := "h", n_days_notice := 3,
         selected_olympiads := [2], selected_subjects := ["Math"],
         selected_levels := ["1"] } : UserRec) = { u with n_days_notice := 3 } ∧
      putUser dbW 1
          { id := 1, username := "alice", password := "h", n_days_notice := 3,
            selected_olympiads := [2], selected_subjects := ["Math"],
            selected_levels := ["1"] } =
        putUser dbW 1
          { id := 1, username := "alice", password := "h", n_days_notice := 3,
            selected_olympiads := [2], selected_subjects := ["Math"],
            selected_levels := ["1"] }) ∧
    ({ id := 1, username := "alice", password := "h",
       selected_olympiads := [], selected_subjects := ["Math"],
       selected_levels := ["1"] } : UserRec).selected_olympiads = [] :=
  ⟨(C4_update_frame dbW 1).1 3
      { id := 1, username := "alice", password := "h", n_days_notice := 3,
        selected_olympiads := [2], selected_subjects := ["Math"],
        selected_levels := ["1"] }
      (putUser dbW 1
        { id := 1, username := "alice", password := "h", n_days_notice := 3,
          selected_olympiads := [2], selected_subjects := ["Math"],
          selected_levels := ["1"] }) rfl,
   (C4_update_frame dbW 1).2.2 { selected_olympiads := some [] }
      { id := 1, username := "alice", password := "h",
        selected_olympiads := [], selected_subjects := ["Math"],
        selected_levels := ["1"] }
      (putUser dbW 1
        { id := 1, username := "alice", password := "h",
          selected_olympiads := [], selected_subjects := ["Math"],
          selected_levels := ["1"] }) rfl rfl⟩

/-- Claim C7: creating a User through the CRUD engine stores the hashed
password, never the submitted plaintext; and the user response schema is
insensitive to the stored password (it carries no password field). -/
theorem C7_password_never_plain (db : DB) (username password : String) :
    (∀ u db1, userCreate db username password = Except.ok (u, db1) →
      u.password = getPasswordHash password ∧ u.password ≠ password) ∧
    (∀ (w : UserRec) (p : String),
      UserResponse.from_orm { w with password := p } = UserResponse.from_orm w) := by
  constructor
  · intro u db1 h
    unfold userCreate at h
    by_cases hdup : db.users.any (fun w => w.username = username)
    · simp [hdup] at h
    · rw [if_neg (by simpa using hdup)] at h
      rw [Except.ok.injEq, Prod.mk.injEq] at h
      obtain ⟨hu, -⟩ := h
      subst hu
      refine ⟨rfl, ?_⟩
      intro hcontra
      have hlen := congrArg String.length hcontra
      simp only [getPasswordHash] at hlen
      rw [String.length_append] at hlen
      have h7 : ("$2b$12$" : String).length = 7 := rfl
      omega
  · intro w p
    cases w
    rfl

/-- Witness for C7: registering "bob" with password "pw" on the sample
database stores a password different from "pw". -/
theorem C7_password_never_plain_witness :
    ({ id := 2, username := "bob", password := getPasswordHash "pw" } : UserRec).password
      = getPasswordHash "pw" ∧
    ({ id := 2, username := "bob", password := getPasswordHash "pw" } : UserRec).password
      ≠ "pw" :=
  (C7_password_never_plain dbW "bob" "pw").1
    { id := 2, username := "bob", password := getPasswordHash "pw" }
    { dbW with users := dbW.users ++
        [{ id := 2, username := "bob", password := getPasswordHash "pw" }] }
    rfl

end Backend
